import Mathlib

/-!
Shallow embedding of the Rgb-bnb spots router
(`src/backend/routes/api/spots.js`) and of the Booking model
(`db/models/booking.js`), over a list-based store.  JavaScript values that
matter to the handlers are modelled explicitly: a query-string parameter is
`Option QVal` (`none` = absent or empty string, both falsy in every handler
branch; `QVal.num q` = a string whose numeric coercion is the rational `q`;
`QVal.nan` = a string whose numeric coercion is NaN), and JS `x || d`
defaulting, which treats the number 0 as falsy, is modelled by `jsOrInt` /
`jsOrNullQ`.
-/

deriving instance DecidableEq for Except

namespace RgbBnb

/-- A query-string value as seen by the numeric coercions the router
applies (`isNaN`, `<`, `>`, `parseInt`, `parseFloat`).  `num q` stands for
a string whose JS numeric value is `q`; `nan` for a non-numeric string. -/
inductive QVal where
  | num (q : ℚ)
  | nan
deriving DecidableEq, Repr

/-- JS `isNaN(v)` on the numeric coercion of the value. -/
def QVal.isNaN : QVal → Bool
  | .num _ => false
  | .nan => true

/-- JS `v < c` where `v` is the query value and `c` a number literal
(comparison with NaN is always false). -/
def QVal.ltNum : QVal → ℚ → Bool
  | .num q, c => decide (q < c)
  | .nan, _ => false

/-- JS `v > c` (comparison with NaN is always false). -/
def QVal.gtNum : QVal → ℚ → Bool
  | .num q, c => decide (q > c)
  | .nan, _ => false

/-- Truncation toward zero, the rounding JS `parseInt` applies to a
decimal numeral string. -/
def truncRat (q : ℚ) : ℤ :=
  Int.tdiv q.num (q.den : ℤ)

/-- JS `parseInt(x)` on a query parameter: `NaN` (here `none`) on an
absent value or a non-numeric string, truncation toward zero otherwise. -/
def parseIntJS : Option QVal → Option ℤ
  | none => none
  | some .nan => none
  | some (.num q) => some (truncRat q)

/-- JS `x || d` where `x` is a number-or-NaN: both NaN and 0 are falsy
and fall back to the default. -/
def jsOrInt (x : Option ℤ) (d : ℤ) : ℤ :=
  match x with
  | none => d
  | some v => if v = 0 then d else v

/-- JS `x || null` on a number-or-null: 0 is falsy and becomes null. -/
def jsOrNullQ : Option ℚ → Option ℚ
  | none => none
  | some q => if q = 0 then none else some q

/-- JS falsiness of an optional string field: `undefined` and `""` are
falsy (`!address` in the body validators catches both). -/
def jsFalsyStr : Option String → Bool
  | none => true
  | some s => s.isEmpty

/-! ## Entity store -/

/-- A `Spots` row. -/
structure Spot where
  id : ℕ
  ownerId : ℕ
  address : String
  city : String
  state : String
  country : String
  lat : ℚ
  lng : ℚ
  name : String
  description : String
  price : ℚ
deriving DecidableEq, Repr

/-- A `SpotImages` row. -/
structure SpotImage where
  id : ℕ
  spotId : ℕ
  url : String
  preview : Bool
deriving DecidableEq, Repr

/-- A `Reviews` row (only the fields the spots router reads). -/
structure Review where
  id : ℕ
  spotId : ℕ
  userId : ℕ
  stars : ℤ
deriving DecidableEq, Repr

/-- A `Bookings` row, per `Booking.init` in `db/models/booking.js`:
spotId, userId, startDate, endDate, all non-null.  Dates are modelled as
day numbers. -/
structure Booking where
  id : ℕ
  spotId : ℕ
  userId : ℕ
  startDate : ℤ
  endDate : ℤ
deriving DecidableEq, Repr

/-- The persistent store the router reads and mutates. -/
structure Store where
  spots : List Spot
  spotImages : List SpotImage
  reviews : List Review
  bookings : List Booking
deriving DecidableEq, Repr

/-- `Spot.findByPk(spotId)`. -/
def findSpot (st : Store) (sid : ℕ) : Option Spot :=
  st.spots.find? (fun s => s.id == sid)

/-! ## Aggregation: average rating and preview image -/

/-- SQL `AVG(stars)` over the Review rows of one spot, as the raw
aggregate the `Review.findOne` calls return: `NULL` over zero rows, the
arithmetic mean otherwise. -/
def sqlAvg (stars : List ℤ) : Option ℚ :=
  if stars = [] then none
  else some ((stars.sum : ℚ) / (stars.length : ℚ))

/-- The `avgStarRating` field of the GET `/spots/:spotId` response body
(line 154: `avgRating.avgStarRating || null`): the raw aggregate with JS
falsy-to-null coercion. -/
def detailAvgStarRating (stars : List ℤ) : Option ℚ :=
  jsOrNullQ (sqlAvg stars)

/-- Floor of a rational (`/` on `ℤ` rounds toward negative infinity). -/
def floorQ (q : ℚ) : ℤ :=
  q.num / (q.den : ℤ)

/-- JS `Number.prototype.toFixed(1)` on a nonnegative rational such as a
star average: one decimal digit, rounding to nearest. -/
def toFixed1 (q : ℚ) : String :=
  let n : ℤ := floorQ (q * 10 + 1 / 2)
  toString (n / 10) ++ "." ++ toString (n % 10)

/-- The local `avgStarRating` the GET `/spots/:spotId` handler computes at
line 137 (`avgRating.avgStarRating ? parseFloat(...).toFixed(1) : null`).
The response body at line 154 does not use it: it re-reads the raw
aggregate instead. -/
def detailRoundedLocal (stars : List ℤ) : Option String :=
  match sqlAvg stars with
  | none => none
  | some q => if q = 0 then none else some (toFixed1 q)

/-- The `avgRating` field of each entry of the GET `/spots` list response
(line 276: `avgRating ? avgRating.avgRating : null`; the aggregate row
object is always truthy, so this is the raw aggregate value). -/
def listAvgRating (stars : List ℤ) : Option ℚ :=
  sqlAvg stars

/-- The `previewImage` field of each entry of the GET `/spots/current`
response (lines 25 and 66): the DB-side include keeps only rows with
`preview = true`, and the handler takes `SpotImages[0].url` when the
filtered list is non-empty, else null. -/
def previewImageCurrent (imgs : List SpotImage) : Option String :=
  match imgs.filter (fun i => i.preview) with
  | [] => none
  | i :: _ => some i.url

/-- The `previewImage` field of each entry of the GET `/spots` list
response (lines 245 and 277), built the same way as on the `/current`
path. -/
def previewImageList (imgs : List SpotImage) : Option String :=
  match imgs.filter (fun i => i.preview) with
  | [] => none
  | i :: _ => some i.url

/-! ## GET /spots/current: avgRating -/

/-- The attribute list of the `Spot.findAll` call in the GET
`/spots/current` handler (lines 33–47).  It selects plain columns only;
no aggregate (`AVG(stars)`) column is computed. -/
def currentSpotsAttributes : List String :=
  ["id", "ownerId", "address", "city", "state", "country", "lat", "lng",
   "name", "description", "price", "createdAt", "updatedAt"]

/-- What `spot.dataValues.avgRating` yields for a spot returned by that
query: the aggregate value when the select list names an `avgRating`
column, `undefined` (here `none`) when it does not. -/
def currentDataValuesAvgRating (reviews : List Review) : Option ℚ :=
  if "avgRating" ∈ currentSpotsAttributes then sqlAvg (reviews.map (fun r => r.stars))
  else none

/-- The `avgRating` field of each entry of the GET `/spots/current`
response (line 65: `spot.dataValues.avgRating || null`). -/
def currentAvgRating (reviews : List Review) : Option ℚ :=
  jsOrNullQ (currentDataValuesAvgRating reviews)

/-! ## Availability Engine (bookings router) -/

/-- Modelled from the spec: the bookings sub-router mounted at line 6 of
`src/backend/routes/api/spots.js` is not among the provided source files,
so the conflict rule is taken from §4.1 of the spec: two date ranges
`[s1,e1)` and `[s2,e2)` for the same spot conflict iff `s1 < e2` and
`s2 < e1`. -/
def rangesConflict (s1 e1 s2 e2 : ℤ) : Bool :=
  decide (s1 < e2) && decide (s2 < e1)

/-- Modelled from the spec: the conflict scan over the existing bookings
of a spot; `excludeId` is the id of the booking being updated (if any),
whose own record §4.1 excludes from the scan. -/
def bookingConflictScan (st : Store) (sid : ℕ) (excludeId : Option ℕ)
    (s e : ℤ) : Bool :=
  st.bookings.any (fun b =>
    b.spotId == sid && !(some b.id == excludeId)
      && rangesConflict s e b.startDate b.endDate)

/-! ## GET /spots: query validation, filters, pagination -/

/-- The query string of a GET `/spots` request (line 168). -/
structure SpotsQuery where
  page : Option QVal := none
  size : Option QVal := none
  minLat : Option QVal := none
  maxLat : Option QVal := none
  minLng : Option QVal := none
  maxLng : Option QVal := none
  minPrice : Option QVal := none
  maxPrice : Option QVal := none
deriving DecidableEq, Repr

/-- The sequelize `where` object the handler folds the validated filters
into: optional `gte`/`lte` bounds per column.  The price bounds keep the
raw `parseFloat` result, which can be NaN (no `isNaN` guard exists on the
price branches). -/
structure WhereClause where
  latGte : Option ℚ := none
  latLte : Option ℚ := none
  lngGte : Option ℚ := none
  lngLte : Option ℚ := none
  priceGte : Option QVal := none
  priceLte : Option QVal := none
deriving DecidableEq, Repr

/-- The validated output of the GET `/spots` query parsing: resolved page
and size plus the filter object. -/
structure PageQuery where
  page : ℤ
  size : ℤ
  filt : WhereClause
deriving DecidableEq, Repr

/-- One latitude/longitude filter check (lines 185, 191, 198, 204):
`isNaN(v) || v < lo || v > hi` rejects with the field-specific error,
otherwise `parseFloat(v)` becomes the bound. -/
def vLatLng (v : Option QVal) (lo hi : ℚ) (field msg : String) :
    Except (String × String) (Option ℚ) :=
  match v with
  | none => .ok none
  | some w =>
    if w.isNaN || w.ltNum lo || w.gtNum hi then .error (field, msg)
    else match w with
         | .num q => .ok (some q)
         | .nan => .ok none

/-- One price filter check (lines 211, 217): only `v < 0` rejects — there
is no `isNaN` guard, so a non-numeric value passes through as a NaN
bound. -/
def vPrice (v : Option QVal) (field msg : String) :
    Except (String × String) (Option QVal) :=
  match v with
  | none => .ok none
  | some w =>
    if w.ltNum 0 then .error (field, msg)
    else .ok (some w)

/-- The GET `/spots` validation pipeline (lines 171–221), in source
order: page/size defaulting via `parseInt(x) || d`, then the page and
size bounds checks, then the six range filters. -/
def validateGetSpots (q : SpotsQuery) : Except (String × String) PageQuery :=
  let page := jsOrInt (parseIntJS q.page) 1
  let size := jsOrInt (parseIntJS q.size) 20
  if page < 1 then
    .error ("page", "Page must be greater than or equal to 1")
  else if size < 1 || size > 20 then
    .error ("size", "Size must be between 1 and 20")
  else do
    let latGte ← vLatLng q.minLat (-90) 90 "minLat" "Minimum latitude is invalid"
    let latLte ← vLatLng q.maxLat (-90) 90 "maxLat" "Maximum latitude is invalid"
    let lngGte ← vLatLng q.minLng (-180) 180 "minLng" "Minimum longitude is invalid"
    let lngLte ← vLatLng q.maxLng (-180) 180 "maxLng" "Maximum longitude is invalid"
    let priceGte ← vPrice q.minPrice "minPrice"
      "Minimum price must be greater than or equal to 0"
    let priceLte ← vPrice q.maxPrice "maxPrice"
      "Maximum price must be greater than or equal to 0"
    .ok ⟨page, size, ⟨latGte, latLte, lngGte, lngLte, priceGte, priceLte⟩⟩

/-- SQL `col >= b` where the bound may be NaN (then nothing matches). -/
def geBound (x : ℚ) : QVal → Bool
  | .num b => decide (b ≤ x)
  | .nan => false

/-- SQL `col <= b` where the bound may be NaN. -/
def leBound (x : ℚ) : QVal → Bool
  | .num b => decide (x ≤ b)
  | .nan => false

/-- Whether a spot satisfies the `where` object: every present bound must
hold (sequelize combines the keys of a `where` object, and the `gte`/`lte`
operators of one key, conjunctively). -/
def spotMatches (w : WhereClause) (s : Spot) : Bool :=
  (match w.latGte with | none => true | some b => decide (b ≤ s.lat)) &&
  (match w.latLte with | none => true | some b => decide (s.lat ≤ b)) &&
  (match w.lngGte with | none => true | some b => decide (b ≤ s.lng)) &&
  (match w.lngLte with | none => true | some b => decide (s.lng ≤ b)) &&
  (match w.priceGte with | none => true | some b => geBound s.price b) &&
  (match w.priceLte with | none => true | some b => leBound s.price b)

/-- The GET `/spots` handler through response shaping of the spot list:
on a validation error the 400 response is returned and no spots are
fetched; otherwise the filtered spots are paginated with `limit size,
offset (page-1)*size` (lines 249–250). -/
def getSpotsHandler (st : Store) (q : SpotsQuery) :
    Except (String × String) (List Spot × ℤ × ℤ) :=
  match validateGetSpots q with
  | .error e => .error e
  | .ok pq =>
    .ok (((st.spots.filter (spotMatches pq.filt)).drop
            ((pq.page - 1) * pq.size).toNat).take pq.size.toNat,
         pq.page, pq.size)

/-- HTTP status of a GET `/spots` outcome: 400 on a validation error
(`Bad Request` with a field-keyed errors object), 200 otherwise. -/
def getSpotsStatus (r : Except (String × String) (List Spot × ℤ × ℤ)) : ℕ :=
  match r with
  | .error _ => 400
  | .ok _ => 200

/-! ## Mutating handlers: create / update / delete / add image -/

/-- A response of one of the mutating spot endpoints. -/
inductive SpotResp where
  | notFound (msg : String)
  | forbidden
  | validation (errors : List (String × String))
  | deleted (msg : String)
  | createdSpot (s : Spot)
  | updated (s : Spot)
  | createdImage (id : ℕ) (url : String) (preview : Bool)
deriving DecidableEq, Repr

/-- The HTTP status each `res.status(...)` call pairs with the response
body. -/
def SpotResp.status : SpotResp → ℕ
  | .notFound _ => 404
  | .forbidden => 403
  | .validation _ => 400
  | .deleted _ => 200
  | .createdSpot _ => 201
  | .updated _ => 200
  | .createdImage _ _ _ => 201

/-- The request body of POST `/spots` and PUT `/spots/:spotId`
(line 335/432); `none` is an absent (`undefined`) field. -/
structure SpotBody where
  address : Option String := none
  city : Option String := none
  state : Option String := none
  country : Option String := none
  lat : Option ℚ := none
  lng : Option ℚ := none
  name : Option String := none
  description : Option String := none
  price : Option ℚ := none
deriving DecidableEq, Repr

/-- `lat === undefined || lat < -90 || lat > 90` (line 347/444). -/
def latInvalid : Option ℚ → Bool
  | none => true
  | some q => decide (q < -90) || decide (q > 90)

/-- `lng === undefined || lng < -180 || lng > 180` (line 352/449). -/
def lngInvalid : Option ℚ → Bool
  | none => true
  | some q => decide (q < -180) || decide (q > 180)

/-- `!name || name.length > 50` (line 357/454). -/
def nameInvalid : Option String → Bool
  | none => true
  | some s => s.isEmpty || decide (s.length > 50)

/-- `price === undefined || price <= 0` (line 367/464). -/
def priceInvalid : Option ℚ → Bool
  | none => true
  | some q => decide (q ≤ 0)

/-- The `errors` object built by the POST `/spots` and PUT
`/spots/:spotId` validators (lines 338–369 and 435–466; the two blocks
are identical), as an ordered field-keyed list. -/
def validateSpotBody (b : SpotBody) : List (String × String) :=
  (if jsFalsyStr b.address then [("address", "Street address is required")] else []) ++
  (if jsFalsyStr b.city then [("city", "City is required")] else []) ++
  (if jsFalsyStr b.state then [("state", "State is required")] else []) ++
  (if jsFalsyStr b.country then [("country", "Country is required")] else []) ++
  (if latInvalid b.lat then [("lat", "Latitude must be within -90 and 90")] else []) ++
  (if lngInvalid b.lng then [("lng", "Longitude must be within -180 and 180")] else []) ++
  (if nameInvalid b.name then [("name", "Name must be less than 50 characters")] else []) ++
  (if jsFalsyStr b.description then [("description", "Description is required")] else []) ++
  (if priceInvalid b.price then [("price", "Price per day must be a positive number")] else [])

/-- Fresh primary key for an inserted row. -/
def freshId (ids : List ℕ) : ℕ :=
  ids.foldr max 0 + 1

/-- The POST `/spots` handler (line 334): validate the body, and only on
an empty errors object create the spot. -/
def createSpotHandler (st : Store) (uid : ℕ) (b : SpotBody) :
    SpotResp × Store :=
  let errors := validateSpotBody b
  if errors ≠ [] then (.validation errors, st)
  else
    let s : Spot :=
      ⟨freshId (st.spots.map (fun s => s.id)), uid,
       b.address.getD "", b.city.getD "", b.state.getD "", b.country.getD "",
       b.lat.getD 0, b.lng.getD 0, b.name.getD "", b.description.getD "",
       b.price.getD 0⟩
    (.createdSpot s, { st with spots := st.spots ++ [s] })

/-- The PUT `/spots/:spotId` handler (line 416): 404 when the spot is
absent, 403 when the requester is not the owner (before validation), 400
on validation errors, otherwise update in place. -/
def updateSpotHandler (st : Store) (uid sid : ℕ) (b : SpotBody) :
    SpotResp × Store :=
  match findSpot st sid with
  | none => (.notFound "Spot couldn't be found", st)
  | some spot =>
    if spot.ownerId ≠ uid then (.forbidden, st)
    else
      let errors := validateSpotBody b
      if errors ≠ [] then (.validation errors, st)
      else
        let s' : Spot :=
          { spot with
            address := b.address.getD "", city := b.city.getD "",
            state := b.state.getD "", country := b.country.getD "",
            lat := b.lat.getD 0, lng := b.lng.getD 0,
            name := b.name.getD "", description := b.description.getD "",
            price := b.price.getD 0 }
        (.updated s',
         { st with spots := st.spots.map (fun s => if s.id = spot.id then s' else s) })

/-- The POST `/spots/:spotId/images` handler (line 299): 404 when the
spot is absent, 403 when the requester is not the owner, otherwise insert
the image row. -/
def addImageHandler (st : Store) (uid sid : ℕ) (url : String) (pv : Bool) :
    SpotResp × Store :=
  match findSpot st sid with
  | none => (.notFound "Spot couldn't be found", st)
  | some spot =>
    if spot.ownerId ≠ uid then (.forbidden, st)
    else
      let nid := freshId (st.spotImages.map (fun i => i.id))
      (.createdImage nid url pv,
       { st with spotImages := st.spotImages ++ [⟨nid, sid, url, pv⟩] })

/-- The DELETE `/spots/:spotId` handler (line 512): 404 when the spot is
absent; 404 (not 403) when the requester is not the owner (line 525, to
avoid exposing authorization logic); otherwise destroy the SpotImages,
Reviews and Bookings rows of the spot and then the spot row itself. -/
def deleteSpotHandler (st : Store) (uid sid : ℕ) : SpotResp × Store :=
  match findSpot st sid with
  | none => (.notFound "Spot couldn't be found", st)
  | some spot =>
    if spot.ownerId ≠ uid then (.notFound "Spot couldn't be found", st)
    else
      (.deleted "Successfully deleted",
       { st with
         spots := st.spots.filter (fun s => !(s.id == spot.id)),
         spotImages := st.spotImages.filter (fun i => !(i.spotId == sid)),
         reviews := st.reviews.filter (fun r => !(r.spotId == sid)),
         bookings := st.bookings.filter (fun b => !(b.spotId == sid)) })

/-! ## Theorems -/

/-- C1: for every spot, two booking date ranges `[s1,e1)` and `[s2,e2)`
conflict iff `s1 < e2` and `s2 < e1`; adjacent ranges (one ending the day
the other starts) never conflict; and the conflict scan run while
updating a booking never reports the booking's own record, only other
bookings of the spot that genuinely overlap. -/
theorem booking_conflict_rule :
    (∀ s1 e1 s2 e2 : ℤ, rangesConflict s1 e1 s2 e2 = true ↔ (s1 < e2 ∧ s2 < e1)) ∧
    (∀ s1 e1 e2 : ℤ, rangesConflict s1 e1 e1 e2 = false) ∧
    (∀ s1 e1 s2 : ℤ, rangesConflict s1 e1 s2 s1 = false) ∧
    (∀ (st : Store) (sid bid : ℕ) (s e : ℤ),
      bookingConflictScan st sid (some bid) s e = true ↔
        ∃ b ∈ st.bookings, b.id ≠ bid ∧ b.spotId = sid ∧
          b.startDate < e ∧ s < b.endDate) := by
  refine ⟨?_, ?_, ?_, ?_⟩
  · intro s1 e1 s2 e2
    simp [rangesConflict]
  · intro s1 e1 e2
    simp [rangesConflict]
  · intro s1 e1 s2
    simp [rangesConflict]
  · intro st sid bid s e
    simp only [bookingConflictScan, rangesConflict, List.any_eq_true,
      Bool.and_eq_true, beq_iff_eq, Bool.not_eq_true', beq_eq_false_iff_ne,
      ne_eq, Option.some.injEq, decide_eq_true_eq]
    constructor
    · rintro ⟨b, hb, ⟨⟨hsid, hne⟩, hd1, hd2⟩⟩
      exact ⟨b, hb, hne, hsid, hd2, hd1⟩
    · rintro ⟨b, hb, hne, hsid, hd1, hd2⟩
      exact ⟨b, hb, ⟨⟨hsid, hne⟩, hd2, hd1⟩⟩

/-- C1 witness: ranges `[1,5)` and `[3,7)` conflict; `[1,5)` and `[5,10)`
do not; a scan that excludes booking 1 reports no conflict in a store
whose only booking (id 1, spot 7, `[1,5)`) overlaps the candidate. -/
theorem booking_conflict_rule_witness :
    rangesConflict 1 5 3 7 = true ∧ rangesConflict 1 5 5 10 = false ∧
    bookingConflictScan ⟨[], [], [], [⟨1, 7, 2, 1, 5⟩]⟩ 7 (some 1) 1 5 = false := by
  refine ⟨(booking_conflict_rule.1 1 5 3 7).mpr (by decide),
          booking_conflict_rule.2.1 1 5 10, ?_⟩
  have h := booking_conflict_rule.2.2.2 ⟨[], [], [], [⟨1, 7, 2, 1, 5⟩]⟩ 7 1 1 5
  rw [Bool.eq_false_iff]
  intro hc
  obtain ⟨b, hb, hne, -⟩ := h.mp hc
  simp only [List.mem_singleton] at hb
  subst hb
  exact hne rfl

/-- C10: the GET `/spots/current` handler computes no rating aggregate,
so the `avgRating` field of every entry it returns is null, whatever
Review rows the spot has. -/
theorem current_avgRating_always_null (reviews : List Review) :
    currentAvgRating reviews = none := by
  rw [currentAvgRating, currentDataValuesAvgRating,
      if_neg (by decide : ¬ "avgRating" ∈ currentSpotsAttributes)]
  rfl

/-- C5: the `/current` and list paths build `previewImage` identically;
the value is null when no image of the spot is flagged `preview`, and the
url of an image flagged `preview` when at least one is. -/
theorem previewImage_spec (imgs : List SpotImage) :
    previewImageCurrent imgs = previewImageList imgs ∧
    ((∀ i ∈ imgs, i.preview = false) → previewImageList imgs = none) ∧
    ((∃ i ∈ imgs, i.preview = true) →
      ∃ i ∈ imgs, i.preview = true ∧ previewImageList imgs = some i.url) := by
  refine ⟨rfl, ?_, ?_⟩
  · intro h
    rw [previewImageList]
    have : imgs.filter (fun i => i.preview) = [] :=
      List.filter_eq_nil_iff.mpr (by intro i hi; simp [h i hi])
    rw [this]
  · intro h
    rw [previewImageList]
    rcases hf : imgs.filter (fun i => i.preview) with _ | ⟨i, t⟩
    · obtain ⟨i, hi, hp⟩ := h
      have : i ∈ imgs.filter (fun i => i.preview) :=
        List.mem_filter.mpr ⟨hi, by simp [hp]⟩
      rw [hf] at this
      exact absurd this (List.not_mem_nil i)
    · have hmem : i ∈ imgs.filter (fun i => i.preview) := by
        rw [hf]; exact List.mem_cons_self i t
      obtain ⟨hi, hp⟩ := List.mem_filter.mp hmem
      exact ⟨i, hi, by simpa using hp, by rw [hf]⟩

/-- C5 witness: with one non-preview and one preview image, both paths
return the preview image's url. -/
theorem previewImage_spec_witness :
    previewImageCurrent [⟨1, 1, "a.png", false⟩, ⟨2, 1, "b.png", true⟩] =
      previewImageList [⟨1, 1, "a.png", false⟩, ⟨2, 1, "b.png", true⟩] ∧
    ∃ i ∈ ([⟨1, 1, "a.png", false⟩, ⟨2, 1, "b.png", true⟩] : List SpotImage),
      i.preview = true ∧
      previewImageList [⟨1, 1, "a.png", false⟩, ⟨2, 1, "b.png", true⟩] = some i.url := by
  refine ⟨(previewImage_spec _).1, (previewImage_spec _).2.2 ?_⟩
  exact ⟨⟨2, 1, "b.png", true⟩, by decide, rfl⟩

/-- C3: with zero Review rows the computed average is null — not 0 and
not an error — on both the detail path (`avgStarRating`) and the list
path (`avgRating`); with at least one review (stars are at least 1) both
equal the arithmetic mean of the stars values. -/
theorem avgRating_null_or_mean (stars : List ℤ) :
    (stars = [] → detailAvgStarRating stars = none ∧ listAvgRating stars = none) ∧
    (stars ≠ [] → (∀ s ∈ stars, 1 ≤ s) →
      detailAvgStarRating stars = some ((stars.sum : ℚ) / (stars.length : ℚ)) ∧
      listAvgRating stars = some ((stars.sum : ℚ) / (stars.length : ℚ))) := by
  constructor
  · rintro rfl
    exact ⟨rfl, rfl⟩
  · intro hne hpos
    have hs : sqlAvg stars = some ((stars.sum : ℚ) / (stars.length : ℚ)) := by
      rw [sqlAvg, if_neg hne]
    have hsum : (0 : ℤ) < stars.sum :=
      List.sum_pos stars (fun a ha => lt_of_lt_of_le one_pos (hpos a ha)) hne
    have hlen : (0 : ℚ) < (stars.length : ℚ) := by
      have : 0 < stars.length := List.length_pos.mpr hne
      exact_mod_cast this
    have havg : (0 : ℚ) < (stars.sum : ℚ) / (stars.length : ℚ) := by
      apply div_pos _ hlen
      exact_mod_cast hsum
    constructor
    · rw [detailAvgStarRating, hs, jsOrNullQ, if_neg (ne_of_gt havg)]
    · rw [listAvgRating, hs]

/-- C3 witness: stars `[3,5]` give average 4 on both paths, and the
claim's zero-review case is exercised at `[]`. -/
theorem avgRating_null_or_mean_witness :
    (detailAvgStarRating [] = none ∧ listAvgRating [] = none) ∧
    detailAvgStarRating [3, 5] = some 4 ∧ listAvgRating [3, 5] = some 4 := by
  refine ⟨(avgRating_null_or_mean []).1 rfl, ?_⟩
  have h := (avgRating_null_or_mean [3, 5]).2 (by simp) (by decide)
  have e : ((([3, 5] : List ℤ).sum : ℚ) / (([3, 5] : List ℤ).length : ℚ)) = 4 := by
    norm_num [List.sum_cons, List.sum_nil]
  rw [e] at h
  exact h

/-- C4: at stars `[3,5]` the GET `/spots/:spotId` response's
`avgStarRating` field is the raw numeric mean 4 — identical to the list
path's `avgRating` — while the one-decimal rendering `"4.0"` the handler
computes at line 137 sits in a local the response never reads: the code
does not render the detail-view average rounded to one decimal. -/
theorem detail_avg_not_rounded :
    detailAvgStarRating [3, 5] = some 4 ∧ listAvgRating [3, 5] = some 4 ∧
    detailRoundedLocal [3, 5] = some "4.0" ∧
    detailAvgStarRating [3, 5] = listAvgRating [3, 5] := by
  have hs : sqlAvg [3, 5] = some 4 := by
    rw [sqlAvg, if_neg (by simp)]
    norm_num [List.sum_cons, List.sum_nil]
  have hfix : toFixed1 4 = "4.0" := by
    have hf : floorQ ((4 : ℚ) * 10 + 1 / 2) = 40 := by
      rw [floorQ]
      norm_num
    rw [toFixed1, hf]
    decide
  refine ⟨?_, ?_, ?_, ?_⟩
  · rw [detailAvgStarRating, hs, jsOrNullQ, if_neg (by norm_num)]
  · rw [listAvgRating, hs]
  · rw [detailRoundedLocal, hs]
    show (if (4 : ℚ) = 0 then none else some (toFixed1 4)) = some "4.0"
    rw [if_neg (by norm_num : ¬ (4 : ℚ) = 0), hfix]
  · rw [detailAvgStarRating, listAvgRating, hs, jsOrNullQ,
        if_neg (by norm_num)]

/-- C2 counterexample: a GET `/spots` request with `page=0` is not
rejected: `parseInt('0') || 1` coerces the falsy 0 to the default, so the
request succeeds with page 1 instead of returning a 400 naming `page`. -/
theorem getSpots_pageZero_not_rejected :
    validateGetSpots { page := some (.num 0) } =
      .ok ⟨1, 20, ⟨none, none, none, none, none, none⟩⟩ := by
  decide

/-- C2 amended: page defaults to 1 and size to 20 when absent — and also
when they parse to 0 or to NaN, since `parseInt(x) || d` treats both as
falsy; a parsed page below 1 other than 0 is rejected with a 400 naming
`page`; a parsed size outside `[1,20]` other than 0 is rejected with a
400 naming `size`; and on any validation error the handler returns the
400 without producing a spot list. -/
theorem getSpots_paging (n : ℤ) (st : Store) (q : SpotsQuery)
    (e : String × String) :
    (validateGetSpots {} = .ok ⟨1, 20, ⟨none, none, none, none, none, none⟩⟩) ∧
    (validateGetSpots { page := some .nan } =
      .ok ⟨1, 20, ⟨none, none, none, none, none, none⟩⟩) ∧
    (n < 0 →
      validateGetSpots { page := some (.num (n : ℚ)) } =
        .error ("page", "Page must be greater than or equal to 1")) ∧
    (n < 0 ∨ 20 < n →
      validateGetSpots { size := some (.num (n : ℚ)) } =
        .error ("size", "Size must be between 1 and 20")) ∧
    (validateGetSpots q = .error e →
      getSpotsHandler st q = .error e ∧
      getSpotsStatus (getSpotsHandler st q) = 400) := by
  have htr : truncRat ((n : ℤ) : ℚ) = n := by
    rw [truncRat, Rat.num_intCast, Rat.den_intCast]
    exact_mod_cast Int.tdiv_one n
  refine ⟨by decide, by decide, ?_, ?_, ?_⟩
  · intro hn
    simp only [validateGetSpots, parseIntJS, htr, jsOrInt]
    rw [if_neg (by omega : ¬ n = 0)]
    rw [if_pos (by omega : n < 1)]
  · intro hn
    simp only [validateGetSpots, parseIntJS, htr, jsOrInt]
    rw [if_neg (by omega : ¬ n = 0)]
    rw [if_neg (by omega : ¬ (1 : ℤ) < 1)]
    rw [if_pos]
    simp only [Bool.or_eq_true, decide_eq_true_eq]
    omega
  · intro hv
    rw [getSpotsHandler, hv]
    exact ⟨rfl, rfl⟩

/-- C2 witness: `page=-1` and `size=25` are both rejected with the
field-specific 400, and the empty query resolves to the defaults. -/
theorem getSpots_paging_witness :
    validateGetSpots {} = .ok ⟨1, 20, ⟨none, none, none, none, none, none⟩⟩ ∧
    validateGetSpots { page := some (.num ((-1 : ℤ) : ℚ)) } =
      .error ("page", "Page must be greater than or equal to 1") ∧
    validateGetSpots { size := some (.num ((25 : ℤ) : ℚ)) } =
      .error ("size", "Size must be between 1 and 20") := by
  refine ⟨(getSpots_paging 0 ⟨[], [], [], []⟩ {} ("", "")).1, ?_, ?_⟩
  · exact (getSpots_paging (-1) ⟨[], [], [], []⟩ {} ("", "")).2.2.1
      (by norm_num)
  · exact (getSpots_paging 25 ⟨[], [], [], []⟩ {} ("", "")).2.2.2.1
      (by norm_num)

/-- C9 counterexample: a non-numeric `minPrice` is not rejected: the
price branches have no `isNaN` guard (only `minPrice < 0`, which is false
for NaN), so validation succeeds and the NaN becomes a price bound. -/
theorem getSpots_nan_price_not_rejected :
    validateGetSpots { minPrice := some .nan } =
      .ok ⟨1, 20, ⟨none, none, none, none, some .nan, none⟩⟩ := by
  decide

/-- C9 amended: the four lat/lng filters, when present, are range-checked
(including an `isNaN` guard), and any invalid value yields a 400 naming
that filter; the two price filters reject only negative numeric values —
a non-numeric price is not rejected; valid filters compose conjunctively,
min and max of a dimension forming a closed interval. -/
theorem getSpots_filters (v : QVal) (p a c pr : ℚ) (s : Spot) :
    ((v.isNaN || v.ltNum (-90) || v.gtNum 90) = true →
      validateGetSpots { minLat := some v } =
        .error ("minLat", "Minimum latitude is invalid") ∧
      validateGetSpots { maxLat := some v } =
        .error ("maxLat", "Maximum latitude is invalid")) ∧
    ((v.isNaN || v.ltNum (-180) || v.gtNum 180) = true →
      validateGetSpots { minLng := some v } =
        .error ("minLng", "Minimum longitude is invalid") ∧
      validateGetSpots { maxLng := some v } =
        .error ("maxLng", "Maximum longitude is invalid")) ∧
    (p < 0 →
      validateGetSpots { minPrice := some (.num p) } =
        .error ("minPrice", "Minimum price must be greater than or equal to 0") ∧
      validateGetSpots { maxPrice := some (.num p) } =
        .error ("maxPrice", "Maximum price must be greater than or equal to 0")) ∧
    (-90 ≤ a → a ≤ 90 → -90 ≤ c → c ≤ 90 →
      validateGetSpots { minLat := some (.num a), maxLat := some (.num c) } =
        .ok ⟨1, 20, ⟨some a, some c, none, none, none, none⟩⟩) ∧
    (spotMatches ⟨some a, some c, none, none, some (.num pr), none⟩ s =
      (decide (a ≤ s.lat) && decide (s.lat ≤ c) && decide (pr ≤ s.price))) := by
  refine ⟨?_, ?_, ?_, ?_, ?_⟩
  · intro hv
    constructor <;>
      simp [validateGetSpots, parseIntJS, jsOrInt, vLatLng, vPrice, hv,
        Except.bind, bind]
  · intro hv
    constructor <;>
      simp [validateGetSpots, parseIntJS, jsOrInt, vLatLng, vPrice, hv,
        Except.bind, bind]
  · intro hp
    have hlt : QVal.ltNum (.num p) 0 = true := by
      simp [QVal.ltNum, hp]
    constructor <;>
      simp [validateGetSpots, parseIntJS, jsOrInt, vLatLng, vPrice, hlt,
        Except.bind, bind]
  · intro h1 h2 h3 h4
    have ha : (QVal.isNaN (.num a) || QVal.ltNum (.num a) (-90)
        || QVal.gtNum (.num a) 90) = false := by
      simp only [QVal.isNaN, QVal.ltNum, QVal.gtNum, Bool.or_eq_false_iff,
        decide_eq_false_iff_not, not_lt, gt_iff_lt]
      exact ⟨⟨trivial, h1⟩, h2⟩
    have hc : (QVal.isNaN (.num c) || QVal.ltNum (.num c) (-90)
        || QVal.gtNum (.num c) 90) = false := by
      simp only [QVal.isNaN, QVal.ltNum, QVal.gtNum, Bool.or_eq_false_iff,
        decide_eq_false_iff_not, not_lt, gt_iff_lt]
      exact ⟨⟨trivial, h3⟩, h4⟩
    simp [validateGetSpots, parseIntJS, jsOrInt, vLatLng, vPrice, ha, hc,
      Except.bind, bind]
  · simp [spotMatches, geBound, Bool.and_assoc]

/-- C9 witness: `minLat=100` is rejected naming `minLat`; `minPrice=-5`
is rejected naming `minPrice`; with `minLat=0` and `maxLat=50` the
validated filter is the closed interval `[0,50]` on latitude, and a spot
at latitude 10 with price 3 matches a lat-and-price filter
conjunctively. -/
theorem getSpots_filters_witness :
    validateGetSpots { minLat := some (.num 100) } =
      .error ("minLat", "Minimum latitude is invalid") ∧
    validateGetSpots { minPrice := some (.num (-5)) } =
      .error ("minPrice", "Minimum price must be greater than or equal to 0") ∧
    validateGetSpots { minLat := some (.num 0), maxLat := some (.num 50) } =
      .ok ⟨1, 20, ⟨some 0, some 50, none, none, none, none⟩⟩ ∧
    spotMatches ⟨some 0, some 50, none, none, some (.num 1), none⟩
      ⟨1, 1, "a", "b", "c", "d", 10, 20, "n", "e", 3⟩ = true := by
  refine ⟨((getSpots_filters (.num 100) 0 0 0 0
      ⟨1, 1, "a", "b", "c", "d", 10, 20, "n", "e", 3⟩).1 (by decide)).1,
    ((getSpots_filters .nan (-5) 0 0 0
      ⟨1, 1, "a", "b", "c", "d", 10, 20, "n", "e", 3⟩).2.2.1 (by norm_num)).1,
    (getSpots_filters .nan 0 0 50 0
      ⟨1, 1, "a", "b", "c", "d", 10, 20, "n", "e", 3⟩).2.2.2.1
      (by norm_num) (by norm_num) (by norm_num) (by norm_num), ?_⟩
  rw [(getSpots_filters .nan 0 0 50 1
      ⟨1, 1, "a", "b", "c", "d", 10, 20, "n", "e", 3⟩).2.2.2.2]
  decide

/-- C6: for an existing spot and a requester who is not the owner,
DELETE returns 404 NotFound (not 403), while PUT and POST-image return
403 Forbidden; in all three cases the store — the spot and its related
rows — is left unchanged. -/
theorem nonOwner_spot_responses (st : Store) (uid sid : ℕ) (spot : Spot)
    (b : SpotBody) (url : String) (pv : Bool)
    (hfind : findSpot st sid = some spot) (hown : spot.ownerId ≠ uid) :
    deleteSpotHandler st uid sid = (.notFound "Spot couldn't be found", st) ∧
    (deleteSpotHandler st uid sid).1.status = 404 ∧
    (deleteSpotHandler st uid sid).1.status ≠ 403 ∧
    updateSpotHandler st uid sid b = (.forbidden, st) ∧
    (updateSpotHandler st uid sid b).1.status = 403 ∧
    addImageHandler st uid sid url pv = (.forbidden, st) ∧
    (addImageHandler st uid sid url pv).1.status = 403 := by
  have hd : deleteSpotHandler st uid sid = (.notFound "Spot couldn't be found", st) := by
    rw [deleteSpotHandler, hfind]
    simp [hown]
  have hu : updateSpotHandler st uid sid b = (.forbidden, st) := by
    rw [updateSpotHandler, hfind]
    simp [hown]
  have ha : addImageHandler st uid sid url pv = (.forbidden, st) := by
    rw [addImageHandler, hfind]
    simp [hown]
  exact ⟨hd, by rw [hd]; rfl, by rw [hd]; simp [SpotResp.status], hu,
    by rw [hu]; rfl, ha, by rw [ha]; rfl⟩

/-- C6 witness: user 99 is not the owner (user 10) of spot 1: DELETE
answers 404 and PUT and POST-image answer 403, each leaving the store
unchanged. -/
theorem nonOwner_spot_responses_witness :
    deleteSpotHandler ⟨[⟨1, 10, "a", "b", "c", "d", 1, 2, "n", "e", 5⟩], [], [], []⟩ 99 1 =
      (.notFound "Spot couldn't be found",
       ⟨[⟨1, 10, "a", "b", "c", "d", 1, 2, "n", "e", 5⟩], [], [], []⟩) ∧
    updateSpotHandler ⟨[⟨1, 10, "a", "b", "c", "d", 1, 2, "n", "e", 5⟩], [], [], []⟩ 99 1 {} =
      (.forbidden, ⟨[⟨1, 10, "a", "b", "c", "d", 1, 2, "n", "e", 5⟩], [], [], []⟩) ∧
    addImageHandler ⟨[⟨1, 10, "a", "b", "c", "d", 1, 2, "n", "e", 5⟩], [], [], []⟩ 99 1 "u" true =
      (.forbidden, ⟨[⟨1, 10, "a", "b", "c", "d", 1, 2, "n", "e", 5⟩], [], [], []⟩) := by
  have h := nonOwner_spot_responses
    ⟨[⟨1, 10, "a", "b", "c", "d", 1, 2, "n", "e", 5⟩], [], [], []⟩ 99 1
    ⟨1, 10, "a", "b", "c", "d", 1, 2, "n", "e", 5⟩ {} "u" true (by decide) (by decide)
  exact ⟨h.1, h.2.2.2.1, h.2.2.2.2.2.1⟩

/-- C7: after a successful DELETE by the owner, the response is 200 with
message `Successfully deleted`, no SpotImage, Review or Booking row
referencing the spotId remains, and the Spot row itself is gone. -/
theorem owner_delete_cascades (st : Store) (uid sid : ℕ) (spot : Spot)
    (hfind : findSpot st sid = some spot) (hown : spot.ownerId = uid) :
    (deleteSpotHandler st uid sid).1 = .deleted "Successfully deleted" ∧
    (deleteSpotHandler st uid sid).1.status = 200 ∧
    (deleteSpotHandler st uid sid).2.spotImages.filter
      (fun i => i.spotId == sid) = [] ∧
    (deleteSpotHandler st uid sid).2.reviews.filter
      (fun r => r.spotId == sid) = [] ∧
    (deleteSpotHandler st uid sid).2.bookings.filter
      (fun b => b.spotId == sid) = [] ∧
    findSpot (deleteSpotHandler st uid sid).2 sid = none := by
  have hid : spot.id = sid := by
    have h : st.spots.find? (fun s => s.id == sid) = some spot := hfind
    have h2 := List.find?_some h
    simpa using h2
  have hd : deleteSpotHandler st uid sid =
      (.deleted "Successfully deleted",
       { st with
         spots := st.spots.filter (fun s => !(s.id == spot.id)),
         spotImages := st.spotImages.filter (fun i => !(i.spotId == sid)),
         reviews := st.reviews.filter (fun r => !(r.spotId == sid)),
         bookings := st.bookings.filter (fun b => !(b.spotId == sid)) }) := by
    rw [deleteSpotHandler, hfind]
    simp [hown]
  rw [hd]
  refine ⟨rfl, rfl, ?_, ?_, ?_, ?_⟩
  · rw [List.filter_eq_nil_iff]
    intro i hi
    have := (List.mem_filter.mp hi).2
    simp_all
  · rw [List.filter_eq_nil_iff]
    intro r hr
    have := (List.mem_filter.mp hr).2
    simp_all
  · rw [List.filter_eq_nil_iff]
    intro b hb
    have := (List.mem_filter.mp hb).2
    simp_all
  · rw [findSpot]
    rw [List.find?_eq_none]
    intro s hs
    have h2 := (List.mem_filter.mp hs).2
    simp_all

/-- C7 witness: the owner (user 10) deletes spot 1; the related image,
review and booking rows disappear and the spot is gone. -/
theorem owner_delete_cascades_witness :
    (deleteSpotHandler
      ⟨[⟨1, 10, "a", "b", "c", "d", 1, 2, "n", "e", 5⟩],
       [⟨1, 1, "u", true⟩], [⟨1, 1, 2, 4⟩], [⟨1, 1, 2, 3, 6⟩]⟩ 10 1).1 =
      .deleted "Successfully deleted" ∧
    (deleteSpotHandler
      ⟨[⟨1, 10, "a", "b", "c", "d", 1, 2, "n", "e", 5⟩],
       [⟨1, 1, "u", true⟩], [⟨1, 1, 2, 4⟩], [⟨1, 1, 2, 3, 6⟩]⟩ 10 1).2.spotImages.filter
      (fun i => i.spotId == 1) = [] ∧
    findSpot (deleteSpotHandler
      ⟨[⟨1, 10, "a", "b", "c", "d", 1, 2, "n", "e", 5⟩],
       [⟨1, 1, "u", true⟩], [⟨1, 1, 2, 4⟩], [⟨1, 1, 2, 3, 6⟩]⟩ 10 1).2 1 = none := by
  have h := owner_delete_cascades
    ⟨[⟨1, 10, "a", "b", "c", "d", 1, 2, "n", "e", 5⟩],
     [⟨1, 1, "u", true⟩], [⟨1, 1, 2, 4⟩], [⟨1, 1, 2, 3, 6⟩]⟩ 10 1
    ⟨1, 10, "a", "b", "c", "d", 1, 2, "n", "e", 5⟩ (by decide) (by decide)
  exact ⟨h.1, h.2.2.1, h.2.2.2.2.2⟩

/-- Auxiliary: a guarded singleton is nil iff its guard is false. -/
theorem guard_singleton_nil (c : Bool) (x : String × String) :
    ((if c = true then [x] else []) = []) ↔ c = false := by
  cases c <;> simp

/-- C8: the POST `/spots` and PUT `/spots/:spotId` body validation is
non-empty exactly when some field is invalid (address/city/state/country
missing, lat outside `[-90,90]`, lng outside `[-180,180]`, name missing
or longer than 50 characters, description missing, price missing or at
most 0), and then both handlers answer 400 with the field-keyed errors
map and leave the store unchanged. -/
theorem spot_body_validation (st : Store) (uid sid : ℕ) (spot : Spot)
    (b : SpotBody) (hfind : findSpot st sid = some spot)
    (hown : spot.ownerId = uid) :
    (validateSpotBody b ≠ [] ↔
      (jsFalsyStr b.address = true ∨ jsFalsyStr b.city = true ∨
       jsFalsyStr b.state = true ∨ jsFalsyStr b.country = true ∨
       latInvalid b.lat = true ∨ lngInvalid b.lng = true ∨
       nameInvalid b.name = true ∨ jsFalsyStr b.description = true ∨
       priceInvalid b.price = true)) ∧
    (validateSpotBody b ≠ [] →
      createSpotHandler st uid b = (.validation (validateSpotBody b), st) ∧
      (createSpotHandler st uid b).1.status = 400 ∧
      updateSpotHandler st uid sid b = (.validation (validateSpotBody b), st) ∧
      (updateSpotHandler st uid sid b).1.status = 400) := by
  constructor
  · have hnil : validateSpotBody b = [] ↔
        (jsFalsyStr b.address = false ∧ jsFalsyStr b.city = false ∧
         jsFalsyStr b.state = false ∧ jsFalsyStr b.country = false ∧
         latInvalid b.lat = false ∧ lngInvalid b.lng = false ∧
         nameInvalid b.name = false ∧ jsFalsyStr b.description = false ∧
         priceInvalid b.price = false) := by
      rw [validateSpotBody]
      simp only [List.append_eq_nil, guard_singleton_nil, and_assoc]
    simp only [ne_eq, hnil, not_and_or, Bool.not_eq_false]
  · intro hinv
    have hc : createSpotHandler st uid b = (.validation (validateSpotBody b), st) := by
      rw [createSpotHandler]
      simp [hinv]
    have hu : updateSpotHandler st uid sid b = (.validation (validateSpotBody b), st) := by
      rw [updateSpotHandler, hfind]
      simp [hown, hinv]
    exact ⟨hc, by rw [hc]; rfl, hu, by rw [hu]; rfl⟩

/-- C8 witness: an empty body (every field invalid) is rejected by both
handlers with the full errors map and no store mutation. -/
theorem spot_body_validation_witness :
    createSpotHandler ⟨[⟨1, 10, "a", "b", "c", "d", 1, 2, "n", "e", 5⟩], [], [], []⟩ 10 {} =
      (.validation (validateSpotBody {}),
       ⟨[⟨1, 10, "a", "b", "c", "d", 1, 2, "n", "e", 5⟩], [], [], []⟩) ∧
    updateSpotHandler ⟨[⟨1, 10, "a", "b", "c", "d", 1, 2, "n", "e", 5⟩], [], [], []⟩ 10 1 {} =
      (.validation (validateSpotBody {}),
       ⟨[⟨1, 10, "a", "b", "c", "d", 1, 2, "n", "e", 5⟩], [], [], []⟩) := by
  have h := (spot_body_validation
    ⟨[⟨1, 10, "a", "b", "c", "d", 1, 2, "n", "e", 5⟩], [], [], []⟩ 10 1
    ⟨1, 10, "a", "b", "c", "d", 1, 2, "n", "e", 5⟩ {} (by decide) (by decide)).2
    (by decide)
  exact ⟨h.1, h.2.2.1⟩

end RgbBnb
